import Mathlib

/-!
Verification of `jobspy_bridge.py` (mortar-lead-scraper).

Shallow embedding of the single-file CLI shim `src/jobspy_bridge.py`:

```
search_term = sys.argv[1]
location = sys.argv[2] if len(sys.argv) > 2 else "United States"
hours_old = int(sys.argv[3]) if len(sys.argv) > 3 else 24
try:
    jobs = scrape_jobs(site_name=["indeed"], search_term=search_term,
                       location=location, results_wanted=50,
                       hours_old=hours_old, country_indeed="USA")
    results = []
    for _, job in jobs.iterrows():
        results.append(dict of seven str(...) projections)
    print(json.dumps(results))
except Exception as e:
    print(json.dumps(dict error = str(e)), file=sys.stderr)
    sys.exit(1)
```

The external `scrape_jobs` call is modelled as an oracle
`ScrapeConfig → Except String (List Row)`: it either returns the rows of
the tabular result (each row an association list of Python values) or
raises an exception carrying a message string.
-/

/-- A Python value as it can appear in a source row.  The claims only ever
involve string values, the `None` value, and absent keys, so the embedding
carries exactly those. -/
inductive PyVal where
  | vstr (s : String)
  | vnone
deriving DecidableEq, Repr

/-- Python `str(·)` on an embedded value: strings are unchanged and
`str(None)` is the text `"None"`. -/
def pyStr : PyVal → String
  | .vstr s => s
  | .vnone => "None"

/-- One row of the tabular result set, as an association list from column
label to value (a pandas `Series` restricted to label lookup). -/
abbrev Row := List (String × PyVal)

/-- Pandas `series.get(k, default)` on a row: the value stored under label
`k` when the label is present (even when that value is `None`), otherwise
the default. -/
def seriesGet (r : Row) (k : String) (d : PyVal) : PyVal :=
  match r.find? (fun p => p.1 == k) with
  | some p => p.2
  | none => d

/-- Label lookup without a default: `some v` when label `k` is present with
value `v`, `none` when the label is absent from the row. -/
def lookupKey (r : Row) (k : String) : Option PyVal :=
  (r.find? (fun p => p.1 == k)).map (fun p => p.2)

/-- Python string slicing `s[:n]`: the first `n` characters (code points)
of `s`, or all of `s` when it is shorter. -/
def pySlice (s : String) (n : Nat) : String :=
  String.mk (s.data.take n)

/-- The normalized job posting record built from one source row: the seven
output fields, each a string. -/
structure Listing where
  title : String
  company : String
  city : String
  state : String
  date_posted : String
  job_url : String
  description : String
deriving DecidableEq, Repr

/-- The projection of one source row into a `Listing`, exactly as the loop
body of `jobspy_bridge.py` builds each dictionary: each field is
`str(job.get(label, ""))`, the source column `company_name` feeds the
output field `company`, and the description is cut to its first 300
characters. -/
def projectRow (job : Row) : Listing :=
  { title := pyStr (seriesGet job "title" (.vstr ""))
    company := pyStr (seriesGet job "company_name" (.vstr ""))
    city := pyStr (seriesGet job "city" (.vstr ""))
    state := pyStr (seriesGet job "state" (.vstr ""))
    date_posted := pyStr (seriesGet job "date_posted" (.vstr ""))
    job_url := pyStr (seriesGet job "job_url" (.vstr ""))
    description := pySlice (pyStr (seriesGet job "description" (.vstr ""))) 300 }

/-- A JSON value (only the constructors the program's output uses). -/
inductive Json where
  | jstr (s : String)
  | jarr (xs : List Json)
  | jobj (fields : List (String × Json))

/-- Hexadecimal digit characters, lowercase, as CPython's `json` module
emits them. -/
def hexChar (n : Nat) : Char :=
  Nat.digitChar (n % 16)

/-- The `\uXXXX` escape for code unit `n < 0x10000`. -/
def uEscape (n : Nat) : String :=
  String.mk ['\\', 'u', hexChar (n / 4096), hexChar (n / 256), hexChar (n / 16), hexChar n]

/-- The escaping CPython's `json.dumps` (with its default
`ensure_ascii=True`) applies to one character of a string: the two-letter
escapes for quote, backslash and common control characters, `\uXXXX` for
the remaining control characters and for every non-ASCII character (with a
surrogate pair beyond the basic plane), and the character itself for the
rest of printable ASCII. -/
def escapeChar (c : Char) : String :=
  if c = '"' then "\\\""
  else if c = '\\' then "\\\\"
  else if c = '\n' then "\\n"
  else if c = '\r' then "\\r"
  else if c = '\t' then "\\t"
  else if c = '\x08' then "\\b"
  else if c = '\x0c' then "\\f"
  else if c.toNat < 0x20 then uEscape c.toNat
  else if c.toNat < 0x7f then String.mk [c]
  else if c.toNat < 0x10000 then uEscape c.toNat
  else uEscape (0xd800 + (c.toNat - 0x10000) / 0x400) ++
       uEscape (0xdc00 + (c.toNat - 0x10000) % 0x400)

/-- CPython `json.dumps` of a string: quoted, with every character escaped. -/
def jsonQuote (s : String) : String :=
  "\"" ++ String.join (s.data.map escapeChar) ++ "\""

/-- CPython `json.dumps` of a JSON value with the default separators
`", "` and `": "`, given recursion fuel for the container depth.  The
program only ever serializes values of container depth at most two (an
array of flat objects, or one flat object), so any fuel of at least that
depth renders them exactly; the fuel-exhausted branch is never reached on
the program's outputs. -/
def dumpsFuel : Nat → Json → String
  | _, .jstr s => jsonQuote s
  | 0, _ => ""
  | n + 1, .jarr xs =>
      "[" ++ String.intercalate ", " (xs.map (dumpsFuel n)) ++ "]"
  | n + 1, .jobj fs =>
      "\x7b" ++
        String.intercalate ", "
          (fs.map (fun p => jsonQuote p.1 ++ ": " ++ dumpsFuel n p.2)) ++
      "\x7d"

/-- The serializer at the fixed fuel sufficient for every value this
program serializes. -/
def pyDumps (j : Json) : String :=
  dumpsFuel 4 j

/-- The JSON object serialized for one listing, with the keys in the
dictionary insertion order of the loop body. -/
def listingJson (l : Listing) : Json :=
  .jobj [("title", .jstr l.title), ("company", .jstr l.company),
         ("city", .jstr l.city), ("state", .jstr l.state),
         ("date_posted", .jstr l.date_posted), ("job_url", .jstr l.job_url),
         ("description", .jstr l.description)]

/-- The JSON array printed to standard output on success. -/
def outputJson (rows : List Row) : Json :=
  .jarr (rows.map (fun r => listingJson (projectRow r)))

/-- The JSON object printed to standard error when the external call
raises with message `m`. -/
def errorJson (m : String) : Json :=
  .jobj [("error", .jstr m)]

/-- Strip leading and trailing whitespace, as Python's `int(str)` does
before parsing. -/
def pyStrip (cs : List Char) : List Char :=
  ((cs.dropWhile Char.isWhitespace).reverse.dropWhile Char.isWhitespace).reverse

/-- After the first digit, Python's integer literals allow further digits
with single underscores between digits. -/
def digitsRest : List Char → Bool
  | [] => true
  | '_' :: c :: cs => c.isDigit && digitsRest cs
  | c :: cs => c.isDigit && digitsRest cs

/-- The numeric value of a digit string (underscores removed). -/
def digitsToNat (cs : List Char) : Nat :=
  (cs.filter (fun c => c ≠ '_')).foldl (fun a c => a * 10 + (c.toNat - 48)) 0

/-- Python `int(s)` on a decimal string: strip whitespace, allow one
leading sign, then require a digit sequence (underscores only between
digits).  `none` models the `ValueError` that `int` raises on anything
else. -/
def pyInt? (s : String) : Option Int :=
  let t := pyStrip s.data
  let (neg, body) : Bool × List Char :=
    match t with
    | '-' :: rest => (true, rest)
    | '+' :: rest => (false, rest)
    | _ => (false, t)
  match body with
  | [] => none
  | c :: rest =>
      if c.isDigit && digitsRest rest then
        let n : Int := Int.ofNat (digitsToNat (c :: rest))
        some (if neg then -n else n)
      else none

/-- The parsed command-line arguments (after `sys.argv[0]`). -/
structure Args where
  search_term : String
  location : String
  hours_old : Int
deriving DecidableEq, Repr

/-- Lines 4-6 of the script, over `sys.argv[1:]`: `search_term` is
`sys.argv[1]` (an `IndexError` when absent), `location` defaults to
`"United States"`, `hours_old` defaults to `24` and otherwise must parse
with `int(·)`.  `none` models the uncaught exception (missing argument or
`ValueError`) that kills the process before any external call. -/
def parseArgs : List String → Option Args
  | [] => none
  | [t] => some ⟨t, "United States", 24⟩
  | [t, l] => some ⟨t, l, 24⟩
  | t :: l :: h :: _ => (pyInt? h).map (fun n => ⟨t, l, n⟩)

/-- The keyword arguments of the one `scrape_jobs` call. -/
structure ScrapeConfig where
  site_name : List String
  search_term : String
  location : String
  results_wanted : Nat
  hours_old : Int
  country_indeed : String
deriving DecidableEq, Repr

/-- The fixed configuration the script passes to `scrape_jobs`. -/
def mkConfig (a : Args) : ScrapeConfig :=
  { site_name := ["indeed"]
    search_term := a.search_term
    location := a.location
    results_wanted := 50
    hours_old := a.hours_old
    country_indeed := "USA" }

/-- The observable outcome of one process invocation.
`success s` prints the line `s` to standard output, nothing to standard
error, and exits 0.  `failure s` prints the line `s` to standard error,
nothing to standard output, and exits 1.  `fatal` is an uncaught exception
before the `try` block: a traceback on standard error, nothing on standard
output, exit code 1. -/
inductive Outcome where
  | success (stdout : String)
  | failure (stderr : String)
  | fatal
deriving DecidableEq, Repr

/-- The process exit status of an outcome. -/
def Outcome.exitCode : Outcome → Nat
  | .success _ => 0
  | _ => 1

/-- The full text an outcome writes to standard output. -/
def Outcome.stdoutText : Outcome → String
  | .success s => s
  | _ => ""

/-- One run of the script: parse the arguments, and if that succeeds call
the external oracle once with the fixed configuration; a returned table is
projected row by row and printed as one JSON array, a raised exception is
printed as one JSON error object on standard error with exit 1.  The
second component records every configuration the oracle was invoked
with. -/
def run (scrape : ScrapeConfig → Except String (List Row))
    (argv : List String) : Outcome × List ScrapeConfig :=
  match parseArgs argv with
  | none => (.fatal, [])
  | some a =>
      let cfg := mkConfig a
      match scrape cfg with
      | .ok rows => (.success (pyDumps (outputJson rows)), [cfg])
      | .error m => (.failure (pyDumps (errorJson m)), [cfg])

/-- The seven output keys, in emission order. -/
def outKeys : List String :=
  ["title", "company", "city", "state", "date_posted", "job_url", "description"]

/-- Output key paired with the source column it is read from. -/
def fieldPairs : List (String × String) :=
  [("title", "title"), ("company", "company_name"), ("city", "city"),
   ("state", "state"), ("date_posted", "date_posted"),
   ("job_url", "job_url"), ("description", "description")]

/-- Whether a JSON field holds a string value. -/
def isStrField : String × Json → Bool
  | (_, .jstr _) => true
  | _ => false

/-- Whether a JSON value is an object with exactly the seven output keys,
in order, every value a string. -/
def sevenStringFieldObj : Json → Bool
  | .jobj fs => fs.map Prod.fst == outKeys && fs.all isStrField
  | _ => false

/-- Field access on a JSON object by key. -/
def jsonField (j : Json) (k : String) : Option Json :=
  match j with
  | .jobj fs => (fs.find? (fun p => p.1 == k)).map (fun p => p.2)
  | _ => none

/-- The source description string of a row, after Python `str` coercion
but before truncation. -/
def srcDesc (r : Row) : String :=
  pyStr (seriesGet r "description" (.vstr ""))

/-! ## Theorems -/

/-- Every listing serializes to an object with exactly the seven string
fields, whatever the row contained. -/
theorem listingJson_shape (l : Listing) : sevenStringFieldObj (listingJson l) = true :=
  rfl

/-- A list prefix of a given length is the prefix of the minimum of that
length and the list's length. -/
theorem take_eq_take_min_length (l : List Char) (n : Nat) :
    l.take n = l.take (min n l.length) := by
  rcases Nat.le_total n l.length with h | h
  · rw [Nat.min_eq_left h]
  · rw [Nat.min_eq_right h, List.take_of_length_le h, List.take_length]

/-- C1: for every run in which the external scrape call succeeds, the text
printed to standard output is the serialization of a JSON array in which
every element is an object with exactly the seven string-valued fields
title, company, city, state, date_posted, job_url, description. -/
theorem output_is_array_of_seven_field_objs
    (scrape : ScrapeConfig → Except String (List Row)) (argv : List String)
    (a : Args) (rows : List Row)
    (hp : parseArgs argv = some a) (hs : scrape (mkConfig a) = Except.ok rows) :
    ∃ js : List Json,
      (run scrape argv).1 = Outcome.success (pyDumps (Json.jarr js)) ∧
      js.all sevenStringFieldObj = true := by
  refine ⟨rows.map (fun r => listingJson (projectRow r)), ?_, ?_⟩
  · simp [run, hp, hs, outputJson]
  · simp only [List.all_eq_true, List.mem_map]
    rintro j ⟨r, -, rfl⟩
    exact listingJson_shape (projectRow r)

theorem output_is_array_of_seven_field_objs_witness :
    ∃ js : List Json,
      (run (fun _ => Except.ok ([[("title", PyVal.vstr "T")]] : List Row)) ["x"]).1 =
        Outcome.success (pyDumps (Json.jarr js)) ∧
      js.all sevenStringFieldObj = true :=
  output_is_array_of_seven_field_objs (fun _ => Except.ok [[("title", PyVal.vstr "T")]])
    ["x"] ⟨"x", "United States", 24⟩ [[("title", PyVal.vstr "T")]] rfl rfl

/-- C2: for every source row, the emitted description has length at most
300 characters, equals the first min(300, original length) characters of
the source description, and is the plain prefix cut with nothing
appended. -/
theorem description_truncated (r : Row) :
    (projectRow r).description.length ≤ 300 ∧
    (projectRow r).description.data = (srcDesc r).data.take (min 300 (srcDesc r).length) ∧
    (projectRow r).description = pySlice (srcDesc r) 300 := by
  refine ⟨?_, ?_, rfl⟩
  · show ((srcDesc r).data.take 300).length ≤ 300
    rw [List.length_take 300 (srcDesc r).data]
    exact Nat.min_le_left _ _
  · show (srcDesc r).data.take 300 = (srcDesc r).data.take (min 300 (srcDesc r).length)
    exact take_eq_take_min_length (srcDesc r).data 300

/-- C3: when the third positional argument does not parse as a Python
integer, the run dies with the uncaught exception before the external
search capability is ever invoked. -/
theorem nonInteger_hours_fatal (scrape : ScrapeConfig → Except String (List Row))
    (t l h : String) (rest : List String) (hbad : pyInt? h = none) :
    (run scrape (t :: l :: h :: rest)).1 = Outcome.fatal ∧
    (run scrape (t :: l :: h :: rest)).2 = [] := by
  constructor <;> simp [run, parseArgs, hbad]

theorem nonInteger_hours_fatal_witness :
    (run (fun _ => Except.ok ([] : List Row)) ["eng", "United States", "abc"]).1 =
      Outcome.fatal ∧
    (run (fun _ => Except.ok ([] : List Row)) ["eng", "United States", "abc"]).2 = [] :=
  nonInteger_hours_fatal (fun _ => Except.ok []) "eng" "United States" "abc" [] rfl

/-- C4: when the external capability raises with message m, the run prints
the single JSON object with key error and value m to standard error and
exits with status 1; for the message "rate limited" that line is exactly
the object shown in the spec. -/
theorem scrape_error_reported
    (scrape : ScrapeConfig → Except String (List Row)) (argv : List String)
    (a : Args) (m : String)
    (hp : parseArgs argv = some a) (hs : scrape (mkConfig a) = Except.error m) :
    (run scrape argv).1 = Outcome.failure (pyDumps (errorJson m)) ∧
    Outcome.exitCode (run scrape argv).1 = 1 ∧
    pyDumps (errorJson "rate limited") = "\x7b\"error\": \"rate limited\"\x7d" := by
  have h1 : (run scrape argv).1 = Outcome.failure (pyDumps (errorJson m)) := by
    simp [run, hp, hs]
  exact ⟨h1, by rw [h1]; rfl, rfl⟩

theorem scrape_error_reported_witness :
    (run (fun _ => Except.error "rate limited") ["x"]).1 =
      Outcome.failure (pyDumps (errorJson "rate limited")) ∧
    Outcome.exitCode (run (fun _ => Except.error "rate limited") ["x"]).1 = 1 ∧
    pyDumps (errorJson "rate limited") = "\x7b\"error\": \"rate limited\"\x7d" :=
  scrape_error_reported (fun _ => Except.error "rate limited") ["x"]
    ⟨"x", "United States", 24⟩ "rate limited" rfl rfl

/-- C5: when only the search term is supplied, the external capability is
invoked exactly once, with location United States and hours_old 24. -/
theorem defaults_applied (scrape : ScrapeConfig → Except String (List Row)) (t : String) :
    (run scrape [t]).2.map (fun c => (c.location, c.hours_old)) =
      [("United States", (24 : Int))] := by
  simp only [run, parseArgs]
  cases scrape (mkConfig ⟨t, "United States", 24⟩) <;> simp [mkConfig]

/-- C6: every configuration the external capability is invoked with has the
single target site indeed, result cap 50, country USA, and recency filter
equal to the parsed hours_old value. -/
theorem fixed_scrape_config (scrape : ScrapeConfig → Except String (List Row))
    (argv : List String) (c : ScrapeConfig) (hc : c ∈ (run scrape argv).2) :
    c.site_name = ["indeed"] ∧ c.site_name.length = 1 ∧ c.results_wanted = 50 ∧
    c.country_indeed = "USA" ∧
    ∃ a, parseArgs argv = some a ∧ c.hours_old = a.hours_old := by
  cases hp : parseArgs argv with
  | none => simp [run, hp] at hc
  | some a =>
    have hcfg : c = mkConfig a := by
      cases hs : scrape (mkConfig a) <;> simpa [run, hp, hs] using hc
    subst hcfg
    exact ⟨rfl, rfl, rfl, rfl, a, rfl, rfl⟩

theorem fixed_scrape_config_witness :
    ({ site_name := ["indeed"], search_term := "x", location := "United States",
       results_wanted := 50, hours_old := 24, country_indeed := "USA" } : ScrapeConfig).site_name
      = ["indeed"] ∧
    (["indeed"] : List String).length = 1 ∧ (50 : Nat) = 50 ∧ "USA" = "USA" ∧
    ∃ a, parseArgs ["x"] = some a ∧ (24 : Int) = a.hours_old := by
  have h := fixed_scrape_config (fun _ => Except.ok ([] : List Row)) ["x"]
    { site_name := ["indeed"], search_term := "x", location := "United States",
      results_wanted := 50, hours_old := 24, country_indeed := "USA" } (by decide)
  exact h

/-- C7: for every source row and every one of the seven projected fields,
a source column absent from the row yields the empty string, and every one
of the seven output keys is present in the emitted object with a string
value (never null, never omitted). -/
theorem missing_field_empty_string (r : Row) (k sk : String)
    (hk : (k, sk) ∈ fieldPairs) (hmiss : lookupKey r sk = none) :
    jsonField (listingJson (projectRow r)) k = some (Json.jstr "") ∧
    ∀ p ∈ fieldPairs, ∃ s, jsonField (listingJson (projectRow r)) p.1 = some (Json.jstr s) := by
  have hfind : r.find? (fun p => p.1 == sk) = none :=
    Option.map_eq_none'.mp hmiss
  constructor
  · fin_cases hk <;>
      simp [jsonField, listingJson, projectRow, seriesGet, hfind, pyStr, pySlice]
  · intro p hp
    fin_cases hp <;> exact ⟨_, rfl⟩

theorem missing_field_empty_string_witness :
    jsonField (listingJson (projectRow ([] : Row))) "company" = some (Json.jstr "") ∧
    ∀ p ∈ fieldPairs, ∃ s,
      jsonField (listingJson (projectRow ([] : Row))) p.1 = some (Json.jstr s) :=
  missing_field_empty_string [] "company" "company_name" (by decide) rfl

/-- C8: every run is all-or-nothing: either the whole projected listing
set is printed as one JSON array on standard output with exit 0, or a
single error object goes to standard error with nothing on standard
output, or the argument parsing dies before the try block with nothing on
standard output; there is no partial emission of listings. -/
theorem all_or_nothing (scrape : ScrapeConfig → Except String (List Row))
    (argv : List String) :
    (∃ rows, (run scrape argv).1 = Outcome.success (pyDumps (outputJson rows)) ∧
      Outcome.exitCode (run scrape argv).1 = 0) ∨
    (∃ m, (run scrape argv).1 = Outcome.failure (pyDumps (errorJson m)) ∧
      Outcome.stdoutText (run scrape argv).1 = "" ∧
      Outcome.exitCode (run scrape argv).1 = 1) ∨
    ((run scrape argv).1 = Outcome.fatal ∧
      Outcome.stdoutText (run scrape argv).1 = "") := by
  cases hp : parseArgs argv with
  | none =>
    right; right
    constructor <;> simp [run, hp, Outcome.stdoutText]
  | some a =>
    cases hs : scrape (mkConfig a) with
    | ok rows =>
      left
      exact ⟨rows, by simp [run, hp, hs], by simp [run, hp, hs, Outcome.exitCode]⟩
    | error m =>
      right; left
      exact ⟨m, by simp [run, hp, hs],
        by simp [run, hp, hs, Outcome.stdoutText],
        by simp [run, hp, hs, Outcome.exitCode]⟩

/-- The mocked source row of the spec's end-to-end example: a description
of five hundred capital As and the company under the source column
company_name. -/
def row9 : Row :=
  [("title", .vstr "Engineer"), ("company_name", .vstr "Acme"),
   ("city", .vstr "Springfield"), ("state", .vstr "IL"),
   ("date_posted", .vstr "2024-01-01"), ("job_url", .vstr "http://x"),
   ("description", .vstr (String.mk (List.replicate 500 'A')))]

/-- The oracle that returns exactly the one mocked row. -/
def scrape9 : ScrapeConfig → Except String (List Row) :=
  fun _ => Except.ok [row9]

set_option maxRecDepth 100000 in
/-- C9: on the mocked one-row result, the run prints exactly the
serialization of the one-element JSON array whose object carries the seven
fields with the source column company_name renamed to company and the
description cut to three hundred As. -/
theorem mock_row_end_to_end :
    (run scrape9 ["mortar"]).1 =
      Outcome.success (pyDumps (Json.jarr [Json.jobj
        [("title", Json.jstr "Engineer"), ("company", Json.jstr "Acme"),
         ("city", Json.jstr "Springfield"), ("state", Json.jstr "IL"),
         ("date_posted", Json.jstr "2024-01-01"), ("job_url", Json.jstr "http://x"),
         ("description", Json.jstr (String.mk (List.replicate 300 'A')))]])) ∧
    pyDumps (Json.jarr [Json.jobj
        [("title", Json.jstr "Engineer"), ("company", Json.jstr "Acme"),
         ("city", Json.jstr "Springfield"), ("state", Json.jstr "IL"),
         ("date_posted", Json.jstr "2024-01-01"), ("job_url", Json.jstr "http://x"),
         ("description", Json.jstr (String.mk (List.replicate 300 'A')))]]) =
      "[\x7b\"title\": \"Engineer\", \"company\": \"Acme\", \"city\": \"Springfield\", " ++
      "\"state\": \"IL\", \"date_posted\": \"2024-01-01\", \"job_url\": \"http://x\", " ++
      "\"description\": \"" ++ String.mk (List.replicate 300 'A') ++ "\"\x7d]" := by
  constructor <;> decide

/-- C10: a source column present with the Python value None is emitted as
the text None (the result of str applied to it), not as the empty string;
the empty-string default is only for absent columns. -/
theorem none_value_stringified (r : Row) (k sk : String)
    (hk : (k, sk) ∈ fieldPairs) (hv : lookupKey r sk = some PyVal.vnone) :
    jsonField (listingJson (projectRow r)) k = some (Json.jstr "None") := by
  obtain ⟨p, hfind, hp2⟩ := Option.map_eq_some'.mp hv
  fin_cases hk <;>
    simp [jsonField, listingJson, projectRow, seriesGet, hfind, hp2, pyStr, pySlice]

theorem none_value_stringified_witness :
    jsonField (listingJson (projectRow ([("city", PyVal.vnone)] : Row))) "city" =
      some (Json.jstr "None") :=
  none_value_stringified [("city", PyVal.vnone)] "city" "city" (by decide) rfl
